import Mathlib

/-!
Shallow embedding of the rustocker terminal dashboard (a Docker TUI written in
Rust) for checking its natural-language specification.

The code under src/ is translated as follows: each stateful Rust struct becomes
a Lean structure holding its pure data fields (handles such as the shared
docker client, the cancellation token and timestamps are omitted: the
corresponding backend call results are passed explicitly as arguments);
asynchronous backend calls become explicit `Except` arguments; `Result` return
values become `Except String`; machine-size `usize` arithmetic becomes `Nat`
(Rust `saturating_sub` coincides with truncated `Nat` subtraction).
-/

namespace Rustocker

/-- Subset of crossterm KeyCode used by the application. -/
inductive KeyCode where
  | up
  | down
  | left
  | right
  | esc
  | char (c : Char)
  | f (n : Nat)
  deriving DecidableEq, Repr

/-- Key modifiers: only CONTROL is inspected by the code. -/
structure KeyModifiers where
  control : Bool
  deriving DecidableEq, Repr

/-- A crossterm KeyEvent: key code plus modifiers. -/
structure KeyEvent where
  code : KeyCode
  modifiers : KeyModifiers
  deriving DecidableEq, Repr

/-- AppEvent from src/app.rs: the tagged union consumed by the orchestrator. -/
inductive AppEvent where
  | key (k : KeyEvent)
  | containersUpdated (cs : List String)
  | imagesUpdated (is : List String)
  | networksUpdated (ns : List String)
  | volumesUpdated (vs : List String)
  | refreshRequested
  | error (msg : String)
  deriving DecidableEq, Repr

/-- The orchestrator state from src/app.rs (struct App): the active tab, the
quit flag and the four data lists.  The event channel ends and the cancellation
token are process handles and carry no data state; events sent on the channel
during handling are returned explicitly by the handlers below. -/
structure App where
  active_tab : Nat
  should_quit : Bool
  containers : List String
  images : List String
  networks : List String
  volumes : List String
  deriving DecidableEq, Repr

/-- The state built by App::new (src/app.rs): tab 0, quit flag clear, all four
lists empty. -/
def App.new : App :=
  { active_tab := 0
    should_quit := false
    containers := []
    images := []
    networks := []
    volumes := [] }

/-- App::handle_key_event (src/app.rs lines 117-144).  The Rust match arms are
rendered as a cascade of decidable tests in source order; an arm whose guard
fails (Char c without CONTROL) falls through to the wildcard, exactly as the
remaining tests do here.  The second component collects the events the handler
sends on the channel (RefreshRequested for the r and F5 keys). -/
def App.handle_key_event (self : App) (key : KeyEvent) : App × List AppEvent :=
  if key.code = KeyCode.char 'q' then
    ({ self with should_quit := true }, [])
  else if key.code = KeyCode.char 'c' ∧ key.modifiers.control = true then
    ({ self with should_quit := true }, [])
  else if key.code = KeyCode.esc then
    ({ self with should_quit := true }, [])
  else if key.code = KeyCode.char 'r' then
    (self, [AppEvent.refreshRequested])
  else if key.code = KeyCode.f 5 then
    (self, [AppEvent.refreshRequested])
  else if key.code = KeyCode.right then
    ({ self with active_tab := (self.active_tab + 1) % 4 }, [])
  else if key.code = KeyCode.left then
    (if self.active_tab = 0 then { self with active_tab := 3 }
     else { self with active_tab := self.active_tab - 1 }, [])
  else
    (self, [])

/-- App::handle_event (src/app.rs lines 83-115).  Every branch of the Rust
function ends in Ok(()); the Error branch only writes the message to stderr,
and the RefreshRequested branch spawns a detached fetch task (whose later
channel sends are asynchronous and hence not part of the synchronous effect
of this handler itself). -/
def App.handle_event (self : App) (event : AppEvent) :
    Except String (App × List AppEvent) :=
  match event with
  | AppEvent.key k => Except.ok (self.handle_key_event k)
  | AppEvent.containersUpdated cs => Except.ok ({ self with containers := cs }, [])
  | AppEvent.imagesUpdated is => Except.ok ({ self with images := is }, [])
  | AppEvent.networksUpdated ns => Except.ok ({ self with networks := ns }, [])
  | AppEvent.volumesUpdated vs => Except.ok ({ self with volumes := vs }, [])
  | AppEvent.refreshRequested => Except.ok (self, [])
  | AppEvent.error _ => Except.ok (self, [])

/-- Iterated key handling: the orchestrator state after a sequence of key
events has been dispatched to App::handle_key_event. -/
def App.applyKeys (self : App) (keys : List KeyEvent) : App :=
  keys.foldl (fun st k => (st.handle_key_event k).1) self

/-- ImageInfo from src/docker.rs: the per-row display record of the images
view. -/
structure ImageInfo where
  id : String
  display_id : String
  repo_tag : String
  size_formatted : String
  created_ago : String
  containers_count : String
  deriving DecidableEq, Repr

/-- ImageInspectDetails from src/docker.rs.  The Rust labels HashMap is
modelled as an association list. -/
structure ImageInspectDetails where
  id : String
  repo_tags : List String
  size_formatted : String
  created_formatted : String
  architecture : String
  os : String
  env : List String
  exposed_ports : List String
  working_dir : String
  entrypoint : List String
  cmd : List String
  labels : List (String × String)
  deriving DecidableEq, Repr

/-- The bollard ImageSummary fields read by DockerClient (src/docker.rs).  The
id is kept as a list of characters so that the byte slicing performed by
format_image_id can be modelled index by index (Docker ids are ASCII, so byte
positions and character positions coincide). -/
structure ImageSummary where
  id : List Char
  repo_tags : List String
  size : Int
  created : Int
  containers : Int
  deriving DecidableEq, Repr

/-- DockerClient::format_image_id (src/docker.rs lines 240-246).  The Rust
body slices the raw byte range 7..19; when the id is longer than 12 but
shorter than 19 that range is out of bounds and the indexing expression
panics, modelled here as `none`. -/
def DockerClient.format_image_id (image : ImageSummary) : Option (List Char) :=
  if image.id.length > 12 then
    if 19 ≤ image.id.length then
      some (((image.id.drop 7).take 12) ++ ['.', '.', '.'])
    else
      none
  else
    some image.id

/-- ContainersUI state (src/ui_containers.rs): tab slot, selection cursor and
the container name rows.  The shared docker client handle and the cancellation
token carry no data state and are omitted; list query results are passed to
the operations explicitly. -/
structure ContainersUI where
  tab_num : Nat
  selected_index : Nat
  containers : List String
  deriving DecidableEq, Repr

/-- ContainersUI::refresh_now (src/ui_containers.rs lines 33-49): on a
successful list query replace the rows wholesale and clamp the selection when
it fell off the end of a non-empty list; on failure change nothing and
propagate the error. -/
def ContainersUI.refresh_now (self : ContainersUI)
    (result : Except String (List String)) :
    ContainersUI × Except String Unit :=
  match result with
  | Except.ok containers =>
    let s1 : ContainersUI := { self with containers := containers }
    if s1.selected_index ≥ s1.containers.length ∧ s1.containers ≠ [] then
      ({ s1 with selected_index := s1.containers.length - 1 }, Except.ok ())
    else
      (s1, Except.ok ())
  | Except.error e => (self, Except.error e)

/-- ContainersUI::handle_input (src/ui_containers.rs lines 134-167).  The s, l
and d actions are logged stubs that leave the view state unchanged.  The Rust
implementation returns Result of unit: no consumed flag is produced, although
the Component trait (src/components.rs) declares Result of bool. -/
def ContainersUI.handle_input (self : ContainersUI) (key : KeyCode)
    (listResult : Except String (List String)) :
    ContainersUI × Except String Unit :=
  match key with
  | KeyCode.up =>
    (if self.selected_index > 0 then
      { self with selected_index := self.selected_index - 1 }
     else self, Except.ok ())
  | KeyCode.down =>
    (if self.selected_index < self.containers.length - 1 then
      { self with selected_index := self.selected_index + 1 }
     else self, Except.ok ())
  | KeyCode.char 'r' => self.refresh_now listResult
  | KeyCode.f 5 => self.refresh_now listResult
  | KeyCode.char 's' => (self, Except.ok ())
  | KeyCode.char 'l' => (self, Except.ok ())
  | KeyCode.char 'd' => (self, Except.ok ())
  | _ => (self, Except.ok ())

/-- The interval, in seconds, of the background refresh task spawned by
ContainersUI::start (src/ui_containers.rs line 112). -/
def ContainersUI.refresh_interval_secs : Nat := 5

/-- Effect on the view state of one tick of the background task spawned by
ContainersUI::start (src/ui_containers.rs lines 115-128): the task issues the
list query, writes a log line if it failed, and drops a successful result
without touching the view (its own source comment notes that only manual
refresh updates the UI data), so the state is unchanged in both cases. -/
def ContainersUI.background_tick (self : ContainersUI)
    (listResult : Except String (List String)) : ContainersUI :=
  match listResult with
  | Except.ok _ => self
  | Except.error _ => self

/-- ContainersUI::start (src/ui_containers.rs lines 103-132): the initial
synchronous load is a plain refresh_now (whose failure aborts start); the
spawned interval task is modelled by background_tick above. -/
def ContainersUI.start (self : ContainersUI)
    (initialResult : Except String (List String)) :
    ContainersUI × Except String Unit :=
  self.refresh_now initialResult

/-- NetworksUI state (src/ui_networks.rs), with the same conventions as
ContainersUI. -/
structure NetworksUI where
  tab_num : Nat
  selected_index : Nat
  networks : List String
  deriving DecidableEq, Repr

/-- NetworksUI::refresh_now (src/ui_networks.rs lines 33-49). -/
def NetworksUI.refresh_now (self : NetworksUI)
    (result : Except String (List String)) :
    NetworksUI × Except String Unit :=
  match result with
  | Except.ok networks =>
    let s1 : NetworksUI := { self with networks := networks }
    if s1.selected_index ≥ s1.networks.length ∧ s1.networks ≠ [] then
      ({ s1 with selected_index := s1.networks.length - 1 }, Except.ok ())
    else
      (s1, Except.ok ())
  | Except.error e => (self, Except.error e)

/-- NetworksUI::handle_input (src/ui_networks.rs lines 116-148): d, c and i
are logged stubs.  Like ContainersUI, the implementation returns Result of
unit, not the consumed flag the Component trait declares. -/
def NetworksUI.handle_input (self : NetworksUI) (key : KeyCode)
    (listResult : Except String (List String)) :
    NetworksUI × Except String Unit :=
  match key with
  | KeyCode.up =>
    (if self.selected_index > 0 then
      { self with selected_index := self.selected_index - 1 }
     else self, Except.ok ())
  | KeyCode.down =>
    (if self.selected_index < self.networks.length - 1 then
      { self with selected_index := self.selected_index + 1 }
     else self, Except.ok ())
  | KeyCode.char 'r' => self.refresh_now listResult
  | KeyCode.f 5 => self.refresh_now listResult
  | KeyCode.char 'd' => (self, Except.ok ())
  | KeyCode.char 'c' => (self, Except.ok ())
  | KeyCode.char 'i' => (self, Except.ok ())
  | _ => (self, Except.ok ())

/-- The interval, in seconds, of the background refresh task spawned by
NetworksUI::start (src/ui_networks.rs line 95). -/
def NetworksUI.refresh_interval_secs : Nat := 20

/-- Effect on the view state of one tick of the background task spawned by
NetworksUI::start (src/ui_networks.rs lines 97-110): the query result is only
checked for an error to log; the view state is never written. -/
def NetworksUI.background_tick (self : NetworksUI)
    (listResult : Except String (List String)) : NetworksUI :=
  match listResult with
  | Except.ok _ => self
  | Except.error _ => self

/-- NetworksUI::start (src/ui_networks.rs lines 86-114): initial synchronous
refresh, then the spawned interval task modelled by background_tick. -/
def NetworksUI.start (self : NetworksUI)
    (initialResult : Except String (List String)) :
    NetworksUI × Except String Unit :=
  self.refresh_now initialResult

/-- VolumesUI state (src/ui_volumes.rs); the last_tick timestamp drives only
the shared 10 second tick cadence and carries no data read by the claims. -/
structure VolumesUI where
  tab_num : Nat
  selected_index : Nat
  volumes : List String
  deriving DecidableEq, Repr

/-- VolumesUI::refresh_now (src/ui_volumes.rs lines 34-50). -/
def VolumesUI.refresh_now (self : VolumesUI)
    (result : Except String (List String)) :
    VolumesUI × Except String Unit :=
  match result with
  | Except.ok volumes =>
    let s1 : VolumesUI := { self with volumes := volumes }
    if s1.selected_index ≥ s1.volumes.length ∧ s1.volumes ≠ [] then
      ({ s1 with selected_index := s1.volumes.length - 1 }, Except.ok ())
    else
      (s1, Except.ok ())
  | Except.error e => (self, Except.error e)

/-- VolumesUI::handle_input (src/ui_volumes.rs lines 100-137): the one view
whose implementation matches the Component trait and returns the consumed
flag — true for every bound key (Up, Down, r, F5, d, c, i), false otherwise;
the refresh branches propagate a query failure through the Result. -/
def VolumesUI.handle_input (self : VolumesUI) (key : KeyCode)
    (listResult : Except String (List String)) :
    VolumesUI × Except String Bool :=
  match key with
  | KeyCode.up =>
    (if self.selected_index > 0 then
      { self with selected_index := self.selected_index - 1 }
     else self, Except.ok true)
  | KeyCode.down =>
    (if self.selected_index < self.volumes.length - 1 then
      { self with selected_index := self.selected_index + 1 }
     else self, Except.ok true)
  | KeyCode.char 'r' =>
    (match self.refresh_now listResult with
     | (s1, Except.ok _) => (s1, Except.ok true)
     | (s1, Except.error e) => (s1, Except.error e))
  | KeyCode.f 5 =>
    (match self.refresh_now listResult with
     | (s1, Except.ok _) => (s1, Except.ok true)
     | (s1, Except.error e) => (s1, Except.error e))
  | KeyCode.char 'd' => (self, Except.ok true)
  | KeyCode.char 'c' => (self, Except.ok true)
  | KeyCode.char 'i' => (self, Except.ok true)
  | _ => (self, Except.ok false)

/-- The keys VolumesUI::handle_input consumes (every non-wildcard match arm of
src/ui_volumes.rs lines 100-137). -/
def VolumesUI.bound_keys : List KeyCode :=
  [KeyCode.up, KeyCode.down, KeyCode.char 'r', KeyCode.f 5,
   KeyCode.char 'd', KeyCode.char 'c', KeyCode.char 'i']

/-- ImagesUI state (src/ui_images.rs): tab slot, selection, image rows and the
inspect modal sub-state (flag, fetched details, scroll offset).  The last_tick
timestamp only drives the 10 second tick cadence and is omitted. -/
structure ImagesUI where
  tab_num : Nat
  selected_index : Nat
  images : List ImageInfo
  show_inspect_modal : Bool
  inspect_data : Option ImageInspectDetails
  inspect_scroll : Nat
  deriving DecidableEq, Repr

/-- ImagesUI::refresh_now (src/ui_images.rs lines 44-60): same shape as the
other three views, over ImageInfo rows. -/
def ImagesUI.refresh_now (self : ImagesUI)
    (result : Except String (List ImageInfo)) :
    ImagesUI × Except String Unit :=
  match result with
  | Except.ok images =>
    let s1 : ImagesUI := { self with images := images }
    if s1.selected_index ≥ s1.images.length ∧ s1.images ≠ [] then
      ({ s1 with selected_index := s1.images.length - 1 }, Except.ok ())
    else
      (s1, Except.ok ())
  | Except.error e => (self, Except.error e)

/-- The state written at the top of ImagesUI::inspect_image (src/ui_images.rs
lines 86-89) before the detail fetch result arrives: modal shown, no data yet,
scroll reset to zero. -/
def ImagesUI.inspect_open (self : ImagesUI) : ImagesUI :=
  { self with
    show_inspect_modal := true
    inspect_data := none
    inspect_scroll := 0 }

/-- ImagesUI::inspect_image (src/ui_images.rs lines 85-104): open the modal in
the loading state, then apply the detail fetch result — populate inspect_data
on success, close the modal again on failure.  Both branches of the Rust
function return Ok(()). -/
def ImagesUI.inspect_image (self : ImagesUI)
    (fetchResult : Except String ImageInspectDetails) :
    ImagesUI × Except String Unit :=
  let s1 := self.inspect_open
  match fetchResult with
  | Except.ok details =>
    ({ s1 with inspect_data := some details }, Except.ok ())
  | Except.error _ =>
    ({ s1 with show_inspect_modal := false }, Except.ok ())

/-- What ImagesUI::render_inspect_modal (src/ui_images.rs lines 171-242)
draws inside the popup. -/
inductive InspectModalContent where
  | formatted (d : ImageInspectDetails)
  | loadingPlaceholder
  deriving DecidableEq, Repr

/-- The content branch taken by ImagesUI::render_inspect_modal (src/ui_images.rs
lines 195-241): the formatted detail text when inspect_data is Some, the
loading placeholder paragraph otherwise. -/
def ImagesUI.render_inspect_modal (self : ImagesUI) : InspectModalContent :=
  match self.inspect_data with
  | some d => InspectModalContent.formatted d
  | none => InspectModalContent.loadingPlaceholder

/-- ImagesUI::format_inspect_data (src/ui_images.rs lines 244-351): the list
of text lines of the inspect modal, one string per ratatui Line pushed by the
Rust function (spans concatenated). -/
def ImagesUI.format_inspect_data (data : ImageInspectDetails) : List String :=
  let sepComma : String := ", "
  let sepSpace : String := " "
  let basic : List String :=
    ["Basic Information", "",
     "ID: " ++ data.id,
     "Repository Tags: " ++ String.intercalate sepComma data.repo_tags,
     "Size: " ++ data.size_formatted,
     "Created: " ++ data.created_formatted,
     "Architecture: " ++ data.architecture,
     "OS: " ++ data.os,
     "", "Configuration", ""]
  let envLines : List String :=
    if data.env ≠ [] then
      ("Environment Variables:" :: data.env.map (fun e => "  " ++ e)) ++ [""]
    else []
  let portLines : List String :=
    if data.exposed_ports ≠ [] then
      ["Exposed Ports: " ++ String.intercalate sepComma data.exposed_ports]
    else []
  let workdirLines : List String :=
    if data.working_dir ≠ "" then
      ["Working Directory: " ++ data.working_dir]
    else []
  let entrypointLines : List String :=
    if data.entrypoint ≠ [] then
      ["Entrypoint: " ++ String.intercalate sepSpace data.entrypoint]
    else []
  let cmdLines : List String :=
    if data.cmd ≠ [] then
      ["Command: " ++ String.intercalate sepSpace data.cmd]
    else []
  let labelLines : List String :=
    if data.labels ≠ [] then
      "Labels" :: "" :: data.labels.map (fun kv => kv.1 ++ ": " ++ kv.2)
    else []
  basic ++ envLines ++ portLines ++ workdirLines ++ entrypointLines ++
    cmdLines ++ [""] ++ labelLines

/-- The modal half of ImagesUI::handle_input (src/ui_images.rs lines 377-401),
reached while the inspect modal is open: i closes the modal and resets the
sub-state, Up and Down scroll the formatted text (Down clamped against the
line count), everything else is ignored. -/
def ImagesUI.handle_modal_input (self : ImagesUI) (key : KeyCode) :
    ImagesUI × Except String Unit :=
  match key with
  | KeyCode.char 'i' =>
    ({ self with
        show_inspect_modal := false
        inspect_data := none
        inspect_scroll := 0 }, Except.ok ())
  | KeyCode.up =>
    (if self.inspect_scroll > 0 then
      { self with inspect_scroll := self.inspect_scroll - 1 }
     else self, Except.ok ())
  | KeyCode.down =>
    match self.inspect_data with
    | some d =>
      (if self.inspect_scroll < (ImagesUI.format_inspect_data d).length - 10 then
        { self with inspect_scroll := self.inspect_scroll + 1 }
       else self, Except.ok ())
    | none => (self, Except.ok ())
  | _ => (self, Except.ok ())

/-- The main-table half of ImagesUI::handle_input (src/ui_images.rs lines
403-439), reached when the modal is closed. -/
def ImagesUI.handle_table_input (self : ImagesUI) (key : KeyCode)
    (listResult : Except String (List ImageInfo))
    (inspectResult : Except String ImageInspectDetails) :
    ImagesUI × Except String Unit :=
  match key with
  | KeyCode.up =>
    (if self.selected_index > 0 then
      { self with selected_index := self.selected_index - 1 }
     else self, Except.ok ())
  | KeyCode.down =>
    (if self.selected_index < self.images.length - 1 then
      { self with selected_index := self.selected_index + 1 }
     else self, Except.ok ())
  | KeyCode.char 'r' => self.refresh_now listResult
  | KeyCode.f 5 => self.refresh_now listResult
  | KeyCode.char 'd' => (self, Except.ok ())
  | KeyCode.char 'p' => (self, Except.ok ())
  | KeyCode.char 'i' =>
    match self.images.get? self.selected_index with
    | some _ => self.inspect_image inspectResult
    | none => (self, Except.ok ())
  | _ => (self, Except.ok ())

/-- The dispatch at the top of ImagesUI::handle_input (src/ui_images.rs lines
376-401): modal handling first, with an early return, then the main table. -/
def ImagesUI.handle_input (self : ImagesUI) (key : KeyCode)
    (listResult : Except String (List ImageInfo))
    (inspectResult : Except String ImageInspectDetails) :
    ImagesUI × Except String Unit :=
  if self.show_inspect_modal then
    self.handle_modal_input key
  else
    self.handle_table_input key listResult inspectResult

/-- C5: invoking inspect first puts the view in the loading state — modal
shown, no data, scroll zero, so rendering shows the loading placeholder —
then applies the detail fetch: on success the data is populated and the modal
stays open; on failure the modal is closed again (and the call still returns
Ok). -/
theorem c5_inspect_modal_flow (st : ImagesUI) (d : ImageInspectDetails)
    (e : String) :
    st.inspect_open.show_inspect_modal = true ∧
    st.inspect_open.inspect_data = none ∧
    st.inspect_open.inspect_scroll = 0 ∧
    st.inspect_open.render_inspect_modal = InspectModalContent.loadingPlaceholder ∧
    (st.inspect_image (Except.ok d)).1.show_inspect_modal = true ∧
    (st.inspect_image (Except.ok d)).1.inspect_data = some d ∧
    (st.inspect_image (Except.error e)).1.show_inspect_modal = false ∧
    (st.inspect_image (Except.error e)).2 = Except.ok () :=
  ⟨rfl, rfl, rfl, rfl, rfl, rfl, rfl, rfl⟩

/-- C6: when the list query of a refresh fails, the whole state of every view — in
particular its items and its selection cursor — is exactly what it was before
the refresh; the error is only propagated as a diagnostic return value. -/
theorem c6_refresh_failure_retains_state (c : ContainersUI) (i : ImagesUI)
    (n : NetworksUI) (v : VolumesUI) (e : String) :
    (c.refresh_now (Except.error e)).1 = c ∧
    (i.refresh_now (Except.error e)).1 = i ∧
    (n.refresh_now (Except.error e)).1 = n ∧
    (v.refresh_now (Except.error e)).1 = v :=
  ⟨rfl, rfl, rfl, rfl⟩

/-- C7: handling an Error event always returns Ok, sends no further events,
and leaves the orchestrator state — the quit flag, the active tab and all
four data lists — exactly unchanged, so an error event never terminates the
main loop. -/
theorem c7_error_event_never_quits (st : App) (e : String) :
    st.handle_event (AppEvent.error e) = Except.ok (st, []) :=
  rfl

/-- C3 counterexample: one tick of the containers background task with a
successful query result does not replace the items of the view with that result —
starting from an empty view and a query returning one container, the items
list is still not the query result afterwards (the task discards the Ok
payload). -/
theorem c3_background_tick_counterexample :
    ((⟨0, 0, []⟩ : ContainersUI).background_tick
        (Except.ok ["web"])).containers ≠ ["web"] := by
  decide

/-- C3 (amended): start() performs the initial synchronous refresh (exactly
refresh_now), and the spawned background task of the containers view (5 s
interval) and the networks view (20 s interval) issues the list query on each
tick but discards a successful result and only logs a failure, leaving the
view state entirely unchanged. -/
theorem c3_start_and_background_refresh (c : ContainersUI) (n : NetworksUI)
    (rc rn : Except String (List String)) :
    c.start rc = c.refresh_now rc ∧
    n.start rn = n.refresh_now rn ∧
    c.background_tick rc = c ∧
    n.background_tick rn = n ∧
    ContainersUI.refresh_interval_secs = 5 ∧
    NetworksUI.refresh_interval_secs = 20 := by
  refine ⟨rfl, rfl, ?_, ?_, rfl, rfl⟩
  · cases rc <;> rfl
  · cases rn <;> rfl

/-- C1 counterexample: after a refresh whose query returned the empty list,
the items are empty but the selection cursor keeps its previous value 4
instead of being reset to 0 as the claim requires. -/
theorem c1_empty_refresh_counterexample :
    ((((⟨0, 4, ["a", "b", "c", "d", "e"]⟩ : ContainersUI).refresh_now
        (Except.ok [])).1.containers = []) ∧
     (((⟨0, 4, ["a", "b", "c", "d", "e"]⟩ : ContainersUI).refresh_now
        (Except.ok [])).1.selected_index ≠ 0)) := by
  decide

/-- C10 counterexample: a 13-character id takes the long branch of
format_image_id, whose byte slice 7..19 is out of range, so the Rust
expression panics (modelled as none) instead of returning an id fragment. -/
theorem c10_format_image_id_counterexample :
    DockerClient.format_image_id
      { id := String.toList ("sha256:abcdef"), repo_tags := [], size := 0,
        created := 0, containers := 0 } = none := by
  decide

/-- Every single key event preserves the bound active_tab < 4: the only arms
of App::handle_key_event that write active_tab are Right, which takes a
remainder modulo 4, and Left, which writes 3 or decrements a positive value. -/
theorem App.handle_key_event_tab_lt (st : App) (k : KeyEvent)
    (h : st.active_tab < 4) : (st.handle_key_event k).1.active_tab < 4 := by
  unfold App.handle_key_event
  split_ifs <;> simp_all <;> omega

/-- The bound active_tab < 4 is preserved by any sequence of key events. -/
theorem App.applyKeys_tab_lt (keys : List KeyEvent) (st : App)
    (h : st.active_tab < 4) : (st.applyKeys keys).active_tab < 4 := by
  induction keys generalizing st with
  | nil => exact h
  | cons k ks ih => exact ih _ (App.handle_key_event_tab_lt st k h)

/-- C2: from any orchestrator state with active_tab < 4 (as established by
App::new), any sequence of Left/Right key events keeps active_tab within
[0, 4); a Right event advances it modulo 4 (3 wraps to 0) and a Left event
retreats it modulo 4 (0 wraps to 3), for any modifiers. -/
theorem c2_tab_navigation_wraps (st : App) (m : KeyModifiers)
    (keys : List KeyEvent) (hst : st.active_tab < 4)
    (hkeys : ∀ k ∈ keys, k.code = KeyCode.left ∨ k.code = KeyCode.right) :
    (st.applyKeys keys).active_tab < 4 ∧
    (st.handle_key_event { code := KeyCode.right, modifiers := m }).1.active_tab
        = (st.active_tab + 1) % 4 ∧
    (st.handle_key_event { code := KeyCode.left, modifiers := m }).1.active_tab
        = (st.active_tab + 3) % 4 := by
  refine ⟨App.applyKeys_tab_lt keys st hst, ?_, ?_⟩
  · simp [App.handle_key_event]
  · simp only [App.handle_key_event]
    split_ifs <;> simp_all <;> omega

/-- C2 witness: from the freshly constructed orchestrator, three Rights reach
tab 3, a fourth wraps to 0, and the step equalities hold concretely. -/
theorem c2_tab_navigation_wraps_witness :
    (App.new.applyKeys
        [{ code := KeyCode.right, modifiers := { control := false } },
         { code := KeyCode.right, modifiers := { control := false } },
         { code := KeyCode.right, modifiers := { control := false } },
         { code := KeyCode.right, modifiers := { control := false } },
         { code := KeyCode.left, modifiers := { control := false } }]).active_tab < 4 ∧
    (App.new.handle_key_event
        { code := KeyCode.right, modifiers := { control := false } }).1.active_tab
        = (App.new.active_tab + 1) % 4 ∧
    (App.new.handle_key_event
        { code := KeyCode.left, modifiers := { control := false } }).1.active_tab
        = (App.new.active_tab + 3) % 4 :=
  c2_tab_navigation_wraps App.new { control := false } _ (by decide) (by decide)

/-- C1 (amended): after a completed refresh, for every view: if the backend
returned a non-empty list the selection becomes min(previous, length - 1) and
in particular stays strictly below the length; if the backend returned the
empty list the items are replaced by the empty list but the selection keeps
its previous value (it is not reset to 0). -/
theorem c1_refresh_clamps_selection
    (c : ContainersUI) (i : ImagesUI) (n : NetworksUI) (v : VolumesUI)
    (cs : List String) (im : List ImageInfo) (ns vs : List String) :
    ((cs ≠ [] →
      (c.refresh_now (Except.ok cs)).1.selected_index
          = min c.selected_index (cs.length - 1) ∧
      (c.refresh_now (Except.ok cs)).1.selected_index < cs.length) ∧
     (cs = [] →
      (c.refresh_now (Except.ok cs)).1.selected_index = c.selected_index)) ∧
    ((im ≠ [] →
      (i.refresh_now (Except.ok im)).1.selected_index
          = min i.selected_index (im.length - 1) ∧
      (i.refresh_now (Except.ok im)).1.selected_index < im.length) ∧
     (im = [] →
      (i.refresh_now (Except.ok im)).1.selected_index = i.selected_index)) ∧
    ((ns ≠ [] →
      (n.refresh_now (Except.ok ns)).1.selected_index
          = min n.selected_index (ns.length - 1) ∧
      (n.refresh_now (Except.ok ns)).1.selected_index < ns.length) ∧
     (ns = [] →
      (n.refresh_now (Except.ok ns)).1.selected_index = n.selected_index)) ∧
    ((vs ≠ [] →
      (v.refresh_now (Except.ok vs)).1.selected_index
          = min v.selected_index (vs.length - 1) ∧
      (v.refresh_now (Except.ok vs)).1.selected_index < vs.length) ∧
     (vs = [] →
      (v.refresh_now (Except.ok vs)).1.selected_index = v.selected_index)) := by
  refine ⟨⟨?_, ?_⟩, ⟨?_, ?_⟩, ⟨?_, ?_⟩, ⟨?_, ?_⟩⟩
  · intro hne
    have hlen : 0 < cs.length := List.length_pos.mpr hne
    simp only [ContainersUI.refresh_now]
    split_ifs with hcond <;> simp_all <;> omega
  · intro hemp
    subst hemp
    simp [ContainersUI.refresh_now]
  · intro hne
    have hlen : 0 < im.length := List.length_pos.mpr hne
    simp only [ImagesUI.refresh_now]
    split_ifs with hcond <;> simp_all <;> omega
  · intro hemp
    subst hemp
    simp [ImagesUI.refresh_now]
  · intro hne
    have hlen : 0 < ns.length := List.length_pos.mpr hne
    simp only [NetworksUI.refresh_now]
    split_ifs with hcond <;> simp_all <;> omega
  · intro hemp
    subst hemp
    simp [NetworksUI.refresh_now]
  · intro hne
    have hlen : 0 < vs.length := List.length_pos.mpr hne
    simp only [VolumesUI.refresh_now]
    split_ifs with hcond <;> simp_all <;> omega
  · intro hemp
    subst hemp
    simp [VolumesUI.refresh_now]

/-- C1 witness (the spec scenario): a containers view of length 5 with
selection 4 refreshed down to 3 items ends with selection 2 = min 4 2,
strictly below the new length 3. -/
theorem c1_refresh_clamps_selection_witness :
    (((⟨0, 4, ["a", "b", "c", "d", "e"]⟩ : ContainersUI).refresh_now
        (Except.ok ["x", "y", "z"])).1.selected_index = 2) ∧
    (((⟨0, 4, ["a", "b", "c", "d", "e"]⟩ : ContainersUI).refresh_now
        (Except.ok ["x", "y", "z"])).1.selected_index < 3) := by
  have h := (c1_refresh_clamps_selection
      ⟨0, 4, ["a", "b", "c", "d", "e"]⟩
      ⟨1, 0, [], false, none, 0⟩ ⟨2, 0, []⟩ ⟨3, 0, []⟩
      ["x", "y", "z"] [] [] []).1.1 (by decide)
  simpa using h

/-- C10 (amended): format_image_id returns the full id when its length is at
most 12; when the length is at least 19 it returns the 12 characters that
follow the 7-character prefix, followed by three dots; for the in-between
lengths 13 to 18 the slice 7..19 is out of range and the code panics. -/
theorem c10_format_image_id_cases (img : ImageSummary) :
    (img.id.length ≤ 12 →
      DockerClient.format_image_id img = some img.id) ∧
    (19 ≤ img.id.length →
      DockerClient.format_image_id img
        = some (((img.id.drop 7).take 12) ++ ['.', '.', '.'])) ∧
    (12 < img.id.length → img.id.length < 19 →
      DockerClient.format_image_id img = none) := by
  refine ⟨fun h => ?_, fun h => ?_, fun h1 h2 => ?_⟩ <;>
    · simp only [DockerClient.format_image_id]
      split_ifs <;> simp_all <;> omega

/-- C10 witness: a 20-character id (7-character prefix plus 13) is abbreviated
to its characters 7..19 followed by three dots. -/
theorem c10_format_image_id_cases_witness :
    DockerClient.format_image_id
      { id := String.toList ("sha256:0123456789abc"), repo_tags := [],
        size := 0, created := 0, containers := 0 }
      = some (((String.toList ("sha256:0123456789abc")).drop 7).take 12
          ++ ['.', '.', '.']) :=
  (c10_format_image_id_cases
      { id := String.toList ("sha256:0123456789abc"), repo_tags := [],
        size := 0, created := 0, containers := 0 }).2.1 (by decide)

/-- C9: for every view and every backend result (success or failure),
refreshing twice in a row with the same result leaves exactly the state
produced by the first refresh — the items sequence is identical and the
selection cursor does not move again. -/
theorem c9_refresh_idempotent
    (c : ContainersUI) (i : ImagesUI) (n : NetworksUI) (v : VolumesUI)
    (rc : Except String (List String)) (ri : Except String (List ImageInfo))
    (rn rv : Except String (List String)) :
    ((c.refresh_now rc).1.refresh_now rc).1 = (c.refresh_now rc).1 ∧
    ((i.refresh_now ri).1.refresh_now ri).1 = (i.refresh_now ri).1 ∧
    ((n.refresh_now rn).1.refresh_now rn).1 = (n.refresh_now rn).1 ∧
    ((v.refresh_now rv).1.refresh_now rv).1 = (v.refresh_now rv).1 := by
  refine ⟨?_, ?_, ?_, ?_⟩
  · cases rc with
    | error e => rfl
    | ok r =>
      by_cases hr : r = []
      · subst hr
        simp [ContainersUI.refresh_now]
      · have hlen : 0 < r.length := List.length_pos.mpr hr
        simp only [ContainersUI.refresh_now]
        split_ifs <;> simp_all
  · cases ri with
    | error e => rfl
    | ok r =>
      by_cases hr : r = []
      · subst hr
        simp [ImagesUI.refresh_now]
      · have hlen : 0 < r.length := List.length_pos.mpr hr
        simp only [ImagesUI.refresh_now]
        split_ifs <;> simp_all
  · cases rn with
    | error e => rfl
    | ok r =>
      by_cases hr : r = []
      · subst hr
        simp [NetworksUI.refresh_now]
      · have hlen : 0 < r.length := List.length_pos.mpr hr
        simp only [NetworksUI.refresh_now]
        split_ifs <;> simp_all
  · cases rv with
    | error e => rfl
    | ok r =>
      by_cases hr : r = []
      · subst hr
        simp [VolumesUI.refresh_now]
      · have hlen : 0 < r.length := List.length_pos.mpr hr
        simp only [VolumesUI.refresh_now]
        split_ifs <;> simp_all

/-- C8: in every view whose items list is non-empty (with the selection in
bounds, as every reachable state has, and the images view in its browsing
state, since an open modal re-routes keys to scrolling), Down moves the
selection one step towards the end and leaves it unchanged exactly at the
last row, and Up moves it one step towards the start and leaves it unchanged
exactly at row 0 — no wraparound at either end. -/
theorem c8_up_down_clamped
    (c : ContainersUI) (i : ImagesUI) (n : NetworksUI) (v : VolumesUI)
    (rc : Except String (List String)) (ri : Except String (List ImageInfo))
    (rd : Except String ImageInspectDetails)
    (rn rv : Except String (List String))
    (hc1 : c.containers ≠ []) (hc2 : c.selected_index < c.containers.length)
    (hi0 : i.show_inspect_modal = false)
    (hi1 : i.images ≠ []) (hi2 : i.selected_index < i.images.length)
    (hn1 : n.networks ≠ []) (hn2 : n.selected_index < n.networks.length)
    (hv1 : v.volumes ≠ []) (hv2 : v.selected_index < v.volumes.length) :
    ((c.handle_input KeyCode.down rc).1.selected_index
        = (if c.selected_index = c.containers.length - 1 then c.selected_index
           else c.selected_index + 1)) ∧
    ((c.handle_input KeyCode.up rc).1.selected_index
        = (if c.selected_index = 0 then c.selected_index
           else c.selected_index - 1)) ∧
    ((i.handle_input KeyCode.down ri rd).1.selected_index
        = (if i.selected_index = i.images.length - 1 then i.selected_index
           else i.selected_index + 1)) ∧
    ((i.handle_input KeyCode.up ri rd).1.selected_index
        = (if i.selected_index = 0 then i.selected_index
           else i.selected_index - 1)) ∧
    ((n.handle_input KeyCode.down rn).1.selected_index
        = (if n.selected_index = n.networks.length - 1 then n.selected_index
           else n.selected_index + 1)) ∧
    ((n.handle_input KeyCode.up rn).1.selected_index
        = (if n.selected_index = 0 then n.selected_index
           else n.selected_index - 1)) ∧
    ((v.handle_input KeyCode.down rv).1.selected_index
        = (if v.selected_index = v.volumes.length - 1 then v.selected_index
           else v.selected_index + 1)) ∧
    ((v.handle_input KeyCode.up rv).1.selected_index
        = (if v.selected_index = 0 then v.selected_index
           else v.selected_index - 1)) := by
  have hcl : 0 < c.containers.length := List.length_pos.mpr hc1
  have hil : 0 < i.images.length := List.length_pos.mpr hi1
  have hnl : 0 < n.networks.length := List.length_pos.mpr hn1
  have hvl : 0 < v.volumes.length := List.length_pos.mpr hv1
  refine ⟨?_, ?_, ?_, ?_, ?_, ?_, ?_, ?_⟩ <;>
    simp only [ContainersUI.handle_input, ImagesUI.handle_input,
      ImagesUI.handle_table_input, NetworksUI.handle_input,
      VolumesUI.handle_input, hi0, Bool.false_eq_true, if_false] <;>
    split_ifs <;> simp_all <;> omega

/-- C8 witness (the spec scenario): containers view with rows web and db and
selection 0 — one Down yields selection 1, and in the same state at the last
row a further Down leaves it at 1; the remaining views behave alike. -/
theorem c8_up_down_clamped_witness :
    ((⟨0, 0, ["web", "db"]⟩ : ContainersUI).handle_input KeyCode.down
        (Except.ok [])).1.selected_index = 1 := by
  have h := (c8_up_down_clamped
      ⟨0, 0, ["web", "db"]⟩
      ⟨1, 0, [⟨"sha", "abc", "nginx", "1 MB", "2d", "1"⟩], false, none, 0⟩
      ⟨2, 0, ["bridge"]⟩ ⟨3, 0, ["vol"]⟩
      (Except.ok []) (Except.ok []) (Except.error ("no fetch"))
      (Except.ok []) (Except.ok [])
      (by decide) (by decide) (by decide) (by decide) (by decide)
      (by decide) (by decide) (by decide) (by decide)).1
  simpa using h

/-- C4: only the volumes view returns the consumed flag the Component trait
declares: its handler answers true exactly for its bound keys (Up, Down, r,
F5, d, c, i) and false for every other key, whereas the containers handler
(like networks and images) returns plain unit — here evaluated at the Up key
— so it produces no boolean for the fallback routing of the orchestrator at all. -/
theorem c4_handle_input_consumed_flag :
    (∀ (v : VolumesUI) (key : KeyCode) (l : List String),
      (v.handle_input key (Except.ok l)).2
        = Except.ok (decide (key ∈ VolumesUI.bound_keys))) ∧
    (((⟨0, 1, ["web", "db"]⟩ : ContainersUI).handle_input KeyCode.up
        (Except.ok [])).2 = Except.ok ()) := by
  constructor
  · intro v key l
    cases key with
    | char ch =>
      by_cases h1 : ch = 'r'
      · subst h1
        simp only [VolumesUI.handle_input, VolumesUI.refresh_now]
        split_ifs <;> simp [VolumesUI.bound_keys]
      · by_cases h2 : ch = 'd'
        · subst h2
          simp [VolumesUI.handle_input, VolumesUI.bound_keys]
        · by_cases h3 : ch = 'c'
          · subst h3
            simp [VolumesUI.handle_input, VolumesUI.bound_keys]
          · by_cases h4 : ch = 'i'
            · subst h4
              simp [VolumesUI.handle_input, VolumesUI.bound_keys]
            · simp [VolumesUI.handle_input, VolumesUI.bound_keys, h1, h2, h3, h4]
    | f nn =>
      by_cases h5 : nn = 5
      · subst h5
        simp only [VolumesUI.handle_input, VolumesUI.refresh_now]
        split_ifs <;> simp [VolumesUI.bound_keys]
      · simp [VolumesUI.handle_input, VolumesUI.bound_keys, h5]
    | up => simp [VolumesUI.handle_input, VolumesUI.bound_keys]
    | down => simp [VolumesUI.handle_input, VolumesUI.bound_keys]
    | left => simp [VolumesUI.handle_input, VolumesUI.bound_keys]
    | right => simp [VolumesUI.handle_input, VolumesUI.bound_keys]
    | esc => simp [VolumesUI.handle_input, VolumesUI.bound_keys]
  · rfl

end Rustocker
